import Mathlib

/-!
Verification of the geminio session-layer packet codec and dialogue layer.

The definitions below are a shallow embedding of

  * `src/packet/packet_sess.go` — the session-layer packet family and its
    binary codec (`SessionPacket`, `SessionAckPacket`, `DismissPacket`,
    `DismissAckPacket`, their `Encode`/`Decode` methods and `SessionLayer`);
  * `src/multiplexer/dialogue.go` — the dialogue state (`dialogue` struct),
    its FSM transition table (`initFSM`), `NewDialogue`, `Close`, `fini`,
    `Write`, `Read`, and the inbound packet handlers of `handlePkt`.

Machine integers are embedded as `Nat` (with explicit `% 2 ^ w` where the Go
code truncates) and `Int` for Go's `int8`.  Byte slices are `List Nat`.
Stateful Go code is embedded as explicit state passing over the `Dialogue`
record; channels are bounded FIFO queues with a closed flag; the reliable
byte stream underneath a dialogue (`conn.Conn`) is modelled as a sink list of
written packets.
-/

namespace Geminio

/-- Big-endian encoding of `n` in `w` bytes (`binary.BigEndian.PutUintN`):
byte `i` is digit `w - 1 - i`.  The caller is responsible for `n < 256 ^ w`,
as in Go where the argument type enforces it. -/
def beBytes (w n : Nat) : List Nat :=
  (List.range w).map (fun i => n / 256 ^ (w - 1 - i) % 256)

/-- Big-endian decoding of a byte list (`binary.BigEndian.UintN`). -/
def beDecode (bs : List Nat) : Nat :=
  bs.foldl (fun acc b => acc * 256 + b) 0

/-- Modelled from the spec: the fixed 14-byte packet header of §3.  The
header codec (`PacketHeader.Encode`) is part of this repository's `packet`
package but is not under `src/`.  §3 fixes the total at 14 bytes with the
4-byte payload-length at bytes [10..14) (the codec under src/ patches
`hdr[10:14]`), so the 8-byte packet-id occupies bytes [2..10) and the two
leading bytes carry version and type. -/
structure PacketHeader where
  version : Nat
  typ : Nat
  packetID : Nat
  packetLen : Nat
  deriving Repr, DecidableEq

/-- Modelled from the spec: header layout of §3, 14 bytes, big-endian
integers, payload-length at bytes [10..14). -/
def PacketHeader.encode (h : PacketHeader) : List Nat :=
  [h.version % 256, h.typ % 256]
    ++ beBytes 8 h.packetID ++ beBytes 4 h.packetLen

/-- `SessionData` from src/packet/packet_sess.go: the JSON tail
`{meta, error}` of every session-layer payload.  Go's `[]byte` and `string`
are both byte lists. -/
structure SessionData where
  meta : List Nat
  err : List Nat
  deriving Repr, DecidableEq

/-- Decode errors of the codec.  `incompletePacket` is
`packet.ErrIncompletePacket`; `jsonErr` stands for any `encoding/json`
unmarshalling error. -/
inductive PacketErr where
  | incompletePacket
  | jsonErr
  deriving Repr, DecidableEq

/-- Model of `json.Marshal` on `SessionData`: an injective byte
serialization.  The claims never depend on the JSON byte layout, only on the
marshalling contract that `jsonUnmarshal` inverts `jsonMarshal`; a
length-prefixed concatenation realises that contract executably. -/
def jsonMarshal (d : SessionData) : List Nat :=
  beBytes 4 d.meta.length ++ d.meta ++ d.err

/-- Model of `json.Unmarshal` into `SessionData`: the inverse of
`jsonMarshal`, failing on byte lists that are not a marshalling. -/
def jsonUnmarshal (bs : List Nat) : Except PacketErr SessionData :=
  if bs.length < 4 then .error .jsonErr
  else
    let n := beDecode (bs.take 4)
    let rest := bs.drop 4
    if rest.length < n then .error .jsonErr
    else .ok ⟨rest.take n, rest.drop n⟩

/-- `SessionFlags` from src/packet/packet_sess.go: priority (8 bits), qos
(Go `int8`, low 4 bits used), and the 1-bit `sessionIDAcquire` flag. -/
structure SessionFlags where
  priority : Nat
  qos : Int
  sessionIDAcquire : Bool
  deriving Repr, DecidableEq

/-- `SessionPacket` from src/packet/packet_sess.go. -/
structure SessionPacket where
  header : PacketHeader
  sessionFlags : SessionFlags
  negotiateID : Nat
  sessionData : SessionData
  deriving Repr, DecidableEq

/-- `SessionPacket.Encode` (src/packet/packet_sess.go lines 48-70): payload
is flags byte, qos/acquire byte, 8-byte big-endian negotiate-id, then the
JSON tail; the payload length is patched big-endian into header bytes
[10..14) with Go's `uint32` truncation. -/
def SessionPacket.encode (p : SessionPacket) : List Nat :=
  let hdr := p.header.encode
  let data := jsonMarshal p.sessionData
  let length := data.length + 10
  let byte1 := ((p.sessionFlags.qos.emod 256).toNat &&& 0x0F)
    ||| (if p.sessionFlags.sessionIDAcquire then 0x10 else 0)
  let pkt := [p.sessionFlags.priority % 256, byte1]
    ++ beBytes 8 p.negotiateID ++ data
  hdr.take 10 ++ beBytes 4 (length % 2 ^ 32) ++ pkt

/-- `SessionPacket.Decode` (src/packet/packet_sess.go lines 72-90).  `hdr` is
the packet's header with `PacketLen` already set (Go mutates a packet whose
header was decoded from the stream); fields Decode does not assign keep the
zero value of a freshly allocated packet.  Note the source tests
`(data[1] & 0x10) == 1`, faithfully embedded. -/
def SessionPacket.decode (hdr : PacketHeader) (data : List Nat) :
    Except PacketErr SessionPacket :=
  let length := hdr.packetLen
  if data.length < length then .error .incompletePacket
  else
    let priority := data.getD 0 0
    let b1 := data.getD 1 0
    let qos : Int := Int.ofNat (b1 &&& 0x0F)
    let acquire := (b1 &&& 0x10) == 1
    let negotiateID := beDecode ((data.drop 2).take 8)
    match jsonUnmarshal ((data.drop 10).take (length - 10)) with
    | .error e => .error e
    | .ok snData =>
        .ok { header := hdr,
              sessionFlags :=
                { priority := priority, qos := qos, sessionIDAcquire := acquire },
              negotiateID := negotiateID,
              sessionData := snData }

/-- `SessionAckPacket` from src/packet/packet_sess.go.  Its embedded
`SessionFlags` is "unused now": `Encode` writes zeros in its place and
`Decode` never assigns it. -/
structure SessionAckPacket where
  header : PacketHeader
  sessionFlags : SessionFlags
  negotiateID : Nat
  sessionID : Nat
  sessionData : SessionData
  deriving Repr, DecidableEq

/-- `SessionAckPacket.Encode` (src/packet/packet_sess.go lines 126-145). -/
def SessionAckPacket.encode (p : SessionAckPacket) : List Nat :=
  let hdr := p.header.encode
  let data := jsonMarshal p.sessionData
  let length := data.length + 18
  let pkt := [0, 0] ++ beBytes 8 p.negotiateID ++ beBytes 8 p.sessionID ++ data
  hdr.take 10 ++ beBytes 4 (length % 2 ^ 32) ++ pkt

/-- `SessionAckPacket.Decode` (src/packet/packet_sess.go lines 147-163).
The unused flags keep the zero value of a freshly allocated packet. -/
def SessionAckPacket.decode (hdr : PacketHeader) (data : List Nat) :
    Except PacketErr SessionAckPacket :=
  let length := hdr.packetLen
  if data.length < length then .error .incompletePacket
  else
    let negotiateID := beDecode ((data.drop 2).take 8)
    let sessionID := beDecode ((data.drop 10).take 8)
    match jsonUnmarshal ((data.drop 18).take (length - 18)) with
    | .error e => .error e
    | .ok snData =>
        .ok { header := hdr,
              sessionFlags := { priority := 0, qos := 0, sessionIDAcquire := false },
              negotiateID := negotiateID,
              sessionID := sessionID,
              sessionData := snData }

/-- `DismissPacket` from src/packet/packet_sess.go. -/
structure DismissPacket where
  header : PacketHeader
  sessionID : Nat
  sessionData : SessionData
  deriving Repr, DecidableEq

/-- `DismissPacket.Encode` (src/packet/packet_sess.go lines 191-209). -/
def DismissPacket.encode (p : DismissPacket) : List Nat :=
  let hdr := p.header.encode
  let data := jsonMarshal p.sessionData
  let length := data.length + 8
  let pkt := beBytes 8 p.sessionID ++ data
  hdr.take 10 ++ beBytes 4 (length % 2 ^ 32) ++ pkt

/-- `DismissPacket.Decode` (src/packet/packet_sess.go lines 211-227). -/
def DismissPacket.decode (hdr : PacketHeader) (data : List Nat) :
    Except PacketErr DismissPacket :=
  let length := hdr.packetLen
  if data.length < length then .error .incompletePacket
  else
    let sessionID := beDecode (data.take 8)
    match jsonUnmarshal ((data.drop 8).take (length - 8)) with
    | .error e => .error e
    | .ok disData =>
        .ok { header := hdr, sessionID := sessionID, sessionData := disData }

/-- `DismissAckPacket` from src/packet/packet_sess.go. -/
structure DismissAckPacket where
  header : PacketHeader
  sessionID : Nat
  sessionData : SessionData
  deriving Repr, DecidableEq

/-- `DismissAckPacket.Encode` (src/packet/packet_sess.go lines 255-273). -/
def DismissAckPacket.encode (p : DismissAckPacket) : List Nat :=
  let hdr := p.header.encode
  let data := jsonMarshal p.sessionData
  let length := data.length + 8
  let pkt := beBytes 8 p.sessionID ++ data
  hdr.take 10 ++ beBytes 4 (length % 2 ^ 32) ++ pkt

/-- `DismissAckPacket.Decode` (src/packet/packet_sess.go lines 275-290). -/
def DismissAckPacket.decode (hdr : PacketHeader) (data : List Nat) :
    Except PacketErr DismissAckPacket :=
  let length := hdr.packetLen
  if data.length < length then .error .incompletePacket
  else
    let sessionID := beDecode (data.take 8)
    match jsonUnmarshal ((data.drop 8).take (length - 8)) with
    | .error e => .error e
    | .ok disData =>
        .ok { header := hdr, sessionID := sessionID, sessionData := disData }

/-- The packet-type discriminator.  The `Type*` byte constants live in the
repository's `packet` package outside `src/`; only the discrimination
matters here, so the variants are an enumeration (spec §3 packet family). -/
inductive PacketType where
  | session
  | sessionAck
  | dismiss
  | dismissAck
  | other
  deriving Repr, DecidableEq

/-- The typed packet family as routed by the dialogue layer: the four
session-layer variants plus an opaque application-layer packet (`Message`,
`Request`, ... are carried transparently). -/
inductive Pkt where
  | sess (p : SessionPacket)
  | sessAck (p : SessionAckPacket)
  | dismiss (p : DismissPacket)
  | dismissAck (p : DismissAckPacket)
  | data (header : PacketHeader)
  deriving Repr, DecidableEq

/-- `pkt.Type()` of the model packets. -/
def Pkt.type : Pkt → PacketType
  | .sess _ => .session
  | .sessAck _ => .sessionAck
  | .dismiss _ => .dismiss
  | .dismissAck _ => .dismissAck
  | .data _ => .other

/-- `SessionLayer` from src/packet/packet_sess.go lines 34-42. -/
def sessionLayer (pkt : Pkt) : Bool :=
  pkt.type == .session || pkt.type == .sessionAck
    || pkt.type == .dismiss || pkt.type == .dismissAck

/-- Variant dispatch of `Encode`; application-layer packets are encoded
elsewhere and not modelled. -/
def encodePkt : Pkt → Option (List Nat)
  | .sess p => some p.encode
  | .sessAck p => some p.encode
  | .dismiss p => some p.encode
  | .dismissAck p => some p.encode
  | .data _ => none

/-! ## Dialogue layer (src/multiplexer/dialogue.go)

State and event names are the string constants of dialogue.go lines 73-93.
Note that the source sets `ET_SESSIONACK = "sessionrecv"`, the same string
as `ET_SESSIONRECV`; the constants below keep the source values. -/

def INIT : String := "init"

def SESSION_SENT : String := "session_sent"

def SESSION_RECV : String := "session_recv"

def SESSIONED : String := "sessioned"

def DISMISS_SENT : String := "dismiss_sent"

def DISMISS_RECV : String := "dismiss_recv"

def DISMISS_HALF : String := "dismiss_half"

def DISMISSED : String := "dismissed"

def FINI : String := "fini"

def ET_SESSIONSENT : String := "sessionsent"

def ET_SESSIONRECV : String := "sessionrecv"

/-- Source value is `"sessionrecv"` (dialogue.go line 86), identical to
`ET_SESSIONRECV`. -/
def ET_SESSIONACK : String := "sessionrecv"

def ET_ERROR : String := "error"

def ET_EOF : String := "eof"

def ET_DISMISSSENT : String := "dismisssent"

def ET_DISMISSRECV : String := "dismissrecv"

def ET_DISMISSACK : String := "dismissack"

def ET_FINI : String := "fini"

/-- The transition table built by `dialogue.initFSM` (dialogue.go lines
263-301): one `(from, event, to)` triple per `AddEvent` call, in source
order, with the string constants resolved to their source values.  The
`ET_ERROR` transitions carry a close callback in the source; callbacks are
not part of the transition relation modelled here. -/
def dialogueTransitions : List (String × String × String) :=
  [ (INIT, ET_SESSIONSENT, SESSION_SENT),
    (SESSION_SENT, ET_SESSIONACK, SESSIONED),
    (SESSION_SENT, ET_ERROR, DISMISSED),
    (SESSION_SENT, ET_EOF, DISMISSED),
    (INIT, ET_SESSIONRECV, SESSION_RECV),
    (SESSION_RECV, ET_SESSIONACK, SESSIONED),
    (SESSION_RECV, ET_ERROR, DISMISSED),
    (SESSION_RECV, ET_EOF, DISMISSED),
    (SESSIONED, ET_ERROR, DISMISSED),
    (SESSIONED, ET_EOF, DISMISSED),
    (SESSIONED, ET_DISMISSSENT, DISMISS_SENT),
    (SESSIONED, ET_DISMISSRECV, DISMISS_RECV),
    (DISMISS_SENT, ET_DISMISSACK, DISMISSED),
    (DISMISS_RECV, ET_DISMISSACK, DISMISSED),
    (INIT, ET_FINI, FINI),
    (SESSION_SENT, ET_FINI, FINI),
    (SESSIONED, ET_FINI, FINI),
    (DISMISS_SENT, ET_FINI, FINI),
    (DISMISS_RECV, ET_FINI, FINI),
    (DISMISSED, ET_FINI, FINI) ]

/-- Modelled from the spec: the FSM runtime (the external `yafsm` package)
per the §4.4 contract — `emit(event)` follows the transition defined for the
current state and event, and is a no-op error (`none`) when no such
transition is defined.  The transitions themselves are exactly those added
by `dialogue.initFSM` under src/. -/
def emitEvent (state ev : String) : Option String :=
  (dialogueTransitions.find? (fun t => t.1 == state && t.2.1 == ev)).map
    (fun t => t.2.2)

/-- An `EmitEvent` call whose error the source ignores (as in
`dialogue.fini`): the state is unchanged when the event is rejected. -/
def emitIgnoreErr (state ev : String) : String :=
  (emitEvent state ev).getD state

/-- A Go channel of packets: a FIFO buffer plus a closed flag. -/
structure Chan where
  buf : List Pkt
  closed : Bool
  deriving Repr, DecidableEq

/-- Channel send (append at the tail). -/
def Chan.push (c : Chan) (p : Pkt) : Chan :=
  { c with buf := c.buf ++ [p] }

/-- `close(ch)`. -/
def Chan.closeCh (c : Chan) : Chan :=
  { c with closed := true }

/-- The `iodefine.IORet` result codes used by `handlePkt` (the `iodefine`
package is a plain enumeration of this repository outside src/; the tags are
those the dialogue code matches on). -/
inductive IORet where
  | ioSuccess
  | ioClosed
  | ioData
  | ioErr
  | ioNewActive
  | ioNewPassive
  deriving Repr, DecidableEq

/-- `Side` from src/multiplexer (ClientSide = 0, ServerSide = 1). -/
inductive Side where
  | clientSide
  | serverSide
  deriving Repr, DecidableEq

/-- Modelled from the spec: `packet.SessionIDNull`, the reserved dialogue-id
(§3 invariant 2: id 0 is reserved); the constant is not under src/. -/
def sessionIDNull : Nat := 0

/-- The `dialogue` struct of src/multiplexer/dialogue.go, restricted to the
state the claims touch.  Channels are the four queues plus the control
channel; `closeOnce` is Go's `*sync.Once` pointer (`none` = nil pointer,
`some done` = allocated once with its done flag); `onceFiniDone` is the done
flag of `onceFini` (allocated by `NewDialogue`).  `cnWritten` records the
packets written to the underlying connection (`cn.Write`, modelled as a
reliable sink), `shubAcks` the sync-hub acks delivered, `delegateOnline` the
`DialogueOnline` firings (the dialogue-id at the time of the call), and
`pfID` the packet factory's next packet-id. -/
structure Dialogue where
  negotiatingID : Nat := 0
  dialogueIDPeersCall : Bool := false
  dialogueID : Nat := sessionIDNull
  fsmState : String := INIT
  onceFiniDone : Bool := false
  closeOnce : Option Bool := none
  sessionOK : Bool := true
  readInCh : Chan := ⟨[], false⟩
  writeInCh : Chan := ⟨[], false⟩
  readOutCh : Chan := ⟨[], false⟩
  writeCh : Chan := ⟨[], false⟩
  meta : List Nat := []
  pfID : Nat := 0
  cnWritten : List Pkt := []
  shubAcks : List Nat := []
  hasDelegate : Bool := false
  delegateOnline : List Nat := []
  deriving Repr, DecidableEq

/-- `NewDialogue` (dialogue.go lines 191-230) with the option closure
already applied: options may set the meta, the negotiating id and the
peers-call flag, and a delegate.  The struct literal sets `onceFini`,
`sessionOK = true`, `dialogueID = SessionIDNull` and the channels; the
`closeOnce` field is never assigned anywhere in `NewDialogue` or the
options, so it keeps the zero value of the field — a nil pointer. -/
def newDialogue (cnMeta : List Nat) (metaOpt : Option (List Nat))
    (negotiatingID : Nat) (peersCall : Bool) (hasDlgt : Bool) : Dialogue :=
  { meta := metaOpt.getD cnMeta,
    negotiatingID := negotiatingID,
    dialogueIDPeersCall := peersCall,
    dialogueID := sessionIDNull,
    fsmState := INIT,
    onceFiniDone := false,
    closeOnce := none,
    sessionOK := true,
    hasDelegate := hasDlgt }

/-- Modelled from the spec: `packet.PacketFactory.NewDismissPacket` is not
under src/; per §4.6 and the glossary it builds a Dismiss carrying the
dialogue's session-id, with a freshly allocated packet-id. -/
def newDismissPacket (pid sessionID : Nat) : DismissPacket :=
  { header := { version := 0, typ := 0, packetID := pid, packetLen := 0 },
    sessionID := sessionID,
    sessionData := ⟨[], []⟩ }

/-- Modelled from the spec: `NewDismissAckPacket(packetID, sessionID, nil)`
is not under src/; per §4.6 the ack echoes the originator's packet-id and
carries the session-id. -/
def newDismissAckPacket (pid sessionID : Nat) : DismissAckPacket :=
  { header := { version := 0, typ := 0, packetID := pid, packetLen := 0 },
    sessionID := sessionID,
    sessionData := ⟨[], []⟩ }

/-- Modelled from the spec: `NewSessionAckPacket(packetID, sessionID, nil)`
is not under src/; per §6 the ack's header echoes the originator's
packet-id, and it carries the negotiate-id (per the glossary, the packet-id
used during open) and the chosen session-id. -/
def newSessionAckPacket (pid sessionID : Nat) : SessionAckPacket :=
  { header := { version := 0, typ := 0, packetID := pid, packetLen := 0 },
    sessionFlags := { priority := 0, qos := 0, sessionIDAcquire := false },
    negotiateID := pid,
    sessionID := sessionID,
    sessionData := ⟨[], []⟩ }

/-- Outcome of `dialogue.Close`: Go either panics (nil `closeOnce`
dereference) or returns with an updated dialogue. -/
inductive CloseResult where
  | panicked
  | ok (d : Dialogue)
  deriving Repr, DecidableEq

/-- `dialogue.Close` (dialogue.go lines 323-337): `dg.closeOnce.Do(...)`
dereferences the `closeOnce` pointer — a nil pointer panics; otherwise the
body runs at most once: under the read-lock, if the session is still OK it
enqueues one freshly built Dismiss packet on the control channel. -/
def Dialogue.close (d : Dialogue) : CloseResult :=
  match d.closeOnce with
  | none => .panicked
  | some true => .ok d
  | some false =>
    if d.sessionOK then
      .ok { d with
              closeOnce := some true,
              writeCh := d.writeCh.push (.dismiss (newDismissPacket d.pfID d.dialogueID)),
              pfID := d.pfID + 1 }
    else .ok { d with closeOnce := some true }

/-- `dialogue.fini` (dialogue.go lines 687-704): under `onceFini`, take the
write-lock, flip `sessionOK`, close the control channel and the three I/O
channels, then emit `ET_FINI` with the error ignored (and release the
FSM). -/
def Dialogue.fini (d : Dialogue) : Dialogue :=
  if d.onceFiniDone then d
  else
    { d with
        onceFiniDone := true,
        sessionOK := false,
        writeCh := d.writeCh.closeCh,
        readInCh := d.readInCh.closeCh,
        writeInCh := d.writeInCh.closeCh,
        readOutCh := d.readOutCh.closeCh,
        fsmState := emitIgnoreErr d.fsmState ET_FINI }

/-- Outcome of `dialogue.Write`. -/
inductive WriteResult where
  | eof
  | ok (d : Dialogue)
  deriving Repr, DecidableEq

/-- `dialogue.Write` (dialogue.go lines 244-253): under the read-lock, a
closed session returns `io.EOF` without touching the queue; otherwise the
packet is enqueued on `writeInCh`. -/
def Dialogue.write (d : Dialogue) (pkt : Pkt) : WriteResult :=
  if d.sessionOK then .ok { d with writeInCh := d.writeInCh.push pkt }
  else .eof

/-- Outcome of `dialogue.Read`: a packet, `io.EOF` on a closed drained
channel, or blocking on an open empty channel. -/
inductive ReadResult where
  | eof
  | blocked
  | pkt (p : Pkt) (d : Dialogue)
  deriving Repr, DecidableEq

/-- `dialogue.Read` (dialogue.go lines 255-261): receive from `readOutCh`;
a closed and drained channel yields `io.EOF`. -/
def Dialogue.read (d : Dialogue) : ReadResult :=
  match d.readOutCh.buf with
  | p :: rest => .pkt p { d with readOutCh := { d.readOutCh with buf := rest } }
  | [] => if d.readOutCh.closed then .eof else .blocked

/-- `fsm.InStates(s1, s2)` as used by `handlePkt`. -/
def Dialogue.inStates (d : Dialogue) (s1 s2 : String) : Bool :=
  d.fsmState == s1 || d.fsmState == s2

/-- The `iodefine.IN` / `*packet.DismissPacket` arm of `dialogue.handlePkt`
(dialogue.go lines 611-647): in `DISMISS_SENT` or `DISMISSED` the FSM is not
touched and a DismissAck is enqueued (simultaneous close); otherwise
`ET_DISMISSRECV` is emitted first.  In both paths a torn-down session
(`!sessionOK`) yields `IOErr` without enqueueing. -/
def Dialogue.handleInDismiss (d : Dialogue) (pkt : DismissPacket) :
    IORet × Dialogue :=
  if d.inStates DISMISS_SENT DISMISSED then
    let retPkt := newDismissAckPacket pkt.header.packetID pkt.sessionID
    if d.sessionOK then
      (.ioSuccess, { d with writeCh := d.writeCh.push (.dismissAck retPkt) })
    else (.ioErr, d)
  else
    match emitEvent d.fsmState ET_DISMISSRECV with
    | none => (.ioErr, d)
    | some st1 =>
      let d1 := { d with fsmState := st1 }
      let retPkt := newDismissAckPacket pkt.header.packetID pkt.sessionID
      if d1.sessionOK then
        (.ioSuccess, { d1 with writeCh := d1.writeCh.push (.dismissAck retPkt) })
      else (.ioErr, d1)

/-- The `iodefine.IN` / `*packet.SessionPacket` arm of `dialogue.handlePkt`
(dialogue.go lines 551-590): emit `ET_SESSIONRECV`; choose the dialogue-id
(the packet's negotiate-id, or the locally chosen negotiating id when the
packet's `SessionIDAcquire` flag is set); reply with a SessionAck carrying
the originator's packet-id and the chosen id; emit `ET_SESSIONACK`; fire
`DialogueOnline` when a delegate is set.  The connection write is modelled
as a reliable sink. -/
def Dialogue.handleInSession (d : Dialogue) (pkt : SessionPacket) :
    IORet × Dialogue :=
  match emitEvent d.fsmState ET_SESSIONRECV with
  | none => (.ioErr, d)
  | some st1 =>
    let dialogueID :=
      if pkt.sessionFlags.sessionIDAcquire then d.negotiatingID
      else pkt.negotiateID
    let retPkt := newSessionAckPacket pkt.header.packetID dialogueID
    let d1 := { d with
                  fsmState := st1,
                  dialogueID := dialogueID,
                  meta := pkt.sessionData.meta,
                  cnWritten := d.cnWritten ++ [.sessAck retPkt] }
    match emitEvent d1.fsmState ET_SESSIONACK with
    | none => (.ioErr, d1)
    | some st2 =>
      let d2 := { d1 with fsmState := st2 }
      let d3 :=
        if d2.hasDelegate then
          { d2 with delegateOnline := d2.delegateOnline ++ [d2.dialogueID] }
        else d2
      (.ioNewPassive, d3)

/-- The `iodefine.IN` / `*packet.SessionAckPacket` arm of
`dialogue.handlePkt` (dialogue.go lines 592-609): emit `ET_SESSIONACK`
(`IOErr` on rejection); adopt the ack's session-id and meta; ack the sync
hub with the packet-id; fire `DialogueOnline` when a delegate is set. -/
def Dialogue.handleInSessionAck (d : Dialogue) (pkt : SessionAckPacket) :
    IORet × Dialogue :=
  match emitEvent d.fsmState ET_SESSIONACK with
  | none => (.ioErr, d)
  | some st1 =>
    let d1 := { d with
                  fsmState := st1,
                  dialogueID := pkt.sessionID,
                  meta := pkt.sessionData.meta,
                  shubAcks := d.shubAcks ++ [pkt.header.packetID] }
    let d2 :=
      if d1.hasDelegate then
        { d1 with delegateOnline := d1.delegateOnline ++ [d1.dialogueID] }
      else d1
    (.ioNewActive, d2)

/-- `dialogue.Side` (dialogue.go lines 240-242): the literal source body is
`return ServerSide`. -/
def Dialogue.side (_ : Dialogue) : Side := .serverSide

/-! ## Codec lemmas and the codec claims -/

theorem length_beBytes (w n : Nat) : (beBytes w n).length = w := by
  simp [beBytes]

theorem length_headerEncode (h : PacketHeader) :
    (PacketHeader.encode h).length = 14 := by
  simp [PacketHeader.encode, length_beBytes]

/-- Shared shape of all four `Encode` methods: ten header bytes, the patched
4-byte big-endian payload length, then the payload.  The length bytes
recover the payload byte count whenever it fits in 32 bits. -/
theorem framing_of_parts (hdrBytes body : List Nat) (L : Nat)
    (hhdr : hdrBytes.length = 14) (hbody : body.length = L)
    (h3 : (hdrBytes.take 10 ++ beBytes 4 (L % 2 ^ 32) ++ body).length - 14
            < 2 ^ 32) :
    (((hdrBytes.take 10 ++ beBytes 4 (L % 2 ^ 32) ++ body).drop 10).take 4
        = beBytes 4
            ((hdrBytes.take 10 ++ beBytes 4 (L % 2 ^ 32) ++ body).length - 14))
      ∧ 14 ≤ (hdrBytes.take 10 ++ beBytes 4 (L % 2 ^ 32) ++ body).length := by
  have h10 : (hdrBytes.take 10).length = 10 := by
    simp [List.length_take, hhdr]
  have h4 : (beBytes 4 (L % 2 ^ 32)).length = 4 := length_beBytes 4 _
  have hlen : (hdrBytes.take 10 ++ beBytes 4 (L % 2 ^ 32) ++ body).length
      = 14 + L := by
    simp only [List.length_append, h10, length_beBytes, hbody]
  have hL : L < 2 ^ 32 := by omega
  constructor
  · rw [List.append_assoc, List.drop_left' h10, List.take_left' h4]
    have hlen2 : (hdrBytes.take 10
        ++ (beBytes 4 (L % 2 ^ 32) ++ body)).length = 14 + L := by
      simp only [List.length_append, h10, length_beBytes, hbody]
      omega
    rw [hlen2]
    have h14 : 14 + L - 14 = L := by omega
    rw [h14, Nat.mod_eq_of_lt hL]
  · omega

theorem sessionDecode_incomplete (hdr : PacketHeader) (data : List Nat)
    (h : data.length < hdr.packetLen) :
    SessionPacket.decode hdr data = .error .incompletePacket := by
  unfold SessionPacket.decode
  simp [h]

theorem sessionAckDecode_incomplete (hdr : PacketHeader) (data : List Nat)
    (h : data.length < hdr.packetLen) :
    SessionAckPacket.decode hdr data = .error .incompletePacket := by
  unfold SessionAckPacket.decode
  simp [h]

theorem dismissDecode_incomplete (hdr : PacketHeader) (data : List Nat)
    (h : data.length < hdr.packetLen) :
    DismissPacket.decode hdr data = .error .incompletePacket := by
  unfold DismissPacket.decode
  simp [h]

theorem dismissAckDecode_incomplete (hdr : PacketHeader) (data : List Nat)
    (h : data.length < hdr.packetLen) :
    DismissAckPacket.decode hdr data = .error .incompletePacket := by
  unfold DismissAckPacket.decode
  simp [h]

/-- The C1 failing input: a `SessionPacket` with the `sessionIDAcquire` flag
set, its header's `PacketLen` already set to the encoded payload length
(16). -/
def p1C1 : SessionPacket :=
  { header := { version := 1, typ := 2, packetID := 5, packetLen := 16 },
    sessionFlags := { priority := 3, qos := 1, sessionIDAcquire := true },
    negotiateID := 77,
    sessionData := ⟨[1, 2], []⟩ }

/-- C1: codec round-trip fails on the code as written.  For the concrete
legal packet `p1C1` whose `sessionIDAcquire` flag is true, decoding the
payload bytes produced by `Encode` (with `PacketLen` set to the encoded
payload length) yields a packet whose flag is `false` — every other field
survives, but the flag does not, so `decode (encode p) ≠ p`.  Root cause:
`Decode` tests `(data[1] & 0x10) == 1` (src/packet/packet_sess.go line 79),
which never holds. -/
theorem C1_roundtrip_loses_acquire_flag :
    p1C1.sessionFlags.sessionIDAcquire = true ∧
    SessionPacket.decode p1C1.header ((p1C1.encode).drop 14)
      = Except.ok
          { p1C1 with
              sessionFlags := { p1C1.sessionFlags with sessionIDAcquire := false } } ∧
    SessionPacket.decode p1C1.header ((p1C1.encode).drop 14)
      ≠ Except.ok p1C1 := by
  refine ⟨rfl, by rfl, ?_⟩
  intro hcontra
  have h2 := Except.ok.inj ((by rfl :
    SessionPacket.decode p1C1.header ((p1C1.encode).drop 14)
      = Except.ok
          { p1C1 with
              sessionFlags :=
                { p1C1.sessionFlags with sessionIDAcquire := false } }) ▸ hcontra)
  have h3 := congrArg (fun q => q.sessionFlags.sessionIDAcquire) h2
  exact Bool.noConfusion h3

/-- The C2 failing input: a raw payload whose second byte has bit 4 set
(`0x10`), with a matching header declaring its length. -/
def hdrC2 : PacketHeader :=
  { version := 0, typ := 0, packetID := 0, packetLen := 14 }

def dataC2 : List Nat := [0, 0x10] ++ beBytes 8 0 ++ jsonMarshal ⟨[], []⟩

/-- C2: the decode comparison bug.  For the payload `dataC2` whose second
byte has bit 4 set (mask `0x10` is non-zero), `Decode` still reconstructs
`sessionIDAcquire = false`, because the source tests `(data[1] & 0x10) == 1`
instead of `!= 0` — contradicting the claim (and the spec's mandated
corrected form) that the flag is set iff the bit is non-zero. -/
theorem C2_acquire_flag_decode_always_false :
    (dataC2.getD 1 0) &&& 0x10 ≠ 0 ∧
    SessionPacket.decode hdrC2 dataC2
      = Except.ok
          { header := hdrC2,
            sessionFlags := { priority := 0, qos := 0, sessionIDAcquire := false },
            negotiateID := 0,
            sessionData := ⟨[], []⟩ } :=
  ⟨by decide, by rfl⟩

/-- C8: length framing.  Every session-layer packet encodes to a buffer
whose bytes [10..14) hold, big-endian, the byte count of everything after
the 14-byte header; and every variant's `Decode` rejects a buffer shorter
than the declared `PacketLen` with `IncompletePacket`. -/
theorem C8_length_framing (pkt : Pkt) (bs : List Nat) (hdr : PacketHeader)
    (data : List Nat) (h1 : sessionLayer pkt = true)
    (h2 : encodePkt pkt = some bs) (h3 : bs.length - 14 < 2 ^ 32)
    (h4 : data.length < hdr.packetLen) :
    ((bs.drop 10).take 4 = beBytes 4 (bs.length - 14) ∧ 14 ≤ bs.length) ∧
    SessionPacket.decode hdr data = .error .incompletePacket ∧
    SessionAckPacket.decode hdr data = .error .incompletePacket ∧
    DismissPacket.decode hdr data = .error .incompletePacket ∧
    DismissAckPacket.decode hdr data = .error .incompletePacket := by
  refine ⟨?_, sessionDecode_incomplete hdr data h4,
    sessionAckDecode_incomplete hdr data h4,
    dismissDecode_incomplete hdr data h4,
    dismissAckDecode_incomplete hdr data h4⟩
  cases pkt with
  | data h => simp [sessionLayer, Pkt.type] at h1
  | sess p =>
    injection h2 with h2
    subst h2
    exact framing_of_parts p.header.encode _ _ (length_headerEncode _)
      (by simp [List.length_append, length_beBytes]; omega) h3
  | sessAck p =>
    injection h2 with h2
    subst h2
    exact framing_of_parts p.header.encode _ _ (length_headerEncode _)
      (by simp [List.length_append, length_beBytes]; omega) h3
  | dismiss p =>
    injection h2 with h2
    subst h2
    exact framing_of_parts p.header.encode _ _ (length_headerEncode _)
      (by simp [List.length_append, length_beBytes]; omega) h3
  | dismissAck p =>
    injection h2 with h2
    subst h2
    exact framing_of_parts p.header.encode _ _ (length_headerEncode _)
      (by simp [List.length_append, length_beBytes]; omega) h3

/-- The C8 witness packet and a short buffer. -/
def pktC8 : Pkt :=
  .sess { header := { version := 1, typ := 2, packetID := 3, packetLen := 0 },
          sessionFlags := { priority := 0, qos := 0, sessionIDAcquire := false },
          negotiateID := 4,
          sessionData := ⟨[9], []⟩ }

def bsC8 : List Nat :=
  (SessionPacket.encode
    { header := { version := 1, typ := 2, packetID := 3, packetLen := 0 },
      sessionFlags := { priority := 0, qos := 0, sessionIDAcquire := false },
      negotiateID := 4,
      sessionData := ⟨[9], []⟩ })

def hdrC8 : PacketHeader := { version := 0, typ := 0, packetID := 0, packetLen := 5 }

def dataC8 : List Nat := [1, 2, 3]

theorem C8_length_framing_witness :
    ((bsC8.drop 10).take 4 = beBytes 4 (bsC8.length - 14) ∧ 14 ≤ bsC8.length) ∧
    SessionPacket.decode hdrC8 dataC8 = .error .incompletePacket ∧
    SessionAckPacket.decode hdrC8 dataC8 = .error .incompletePacket ∧
    DismissPacket.decode hdrC8 dataC8 = .error .incompletePacket ∧
    DismissAckPacket.decode hdrC8 dataC8 = .error .incompletePacket :=
  C8_length_framing pktC8 bsC8 hdrC8 dataC8 rfl rfl (by decide) (by decide)

/-! ## FSM and dialogue claims -/

/-- C3 counterexample: `initFSM` (dialogue.go lines 294-301) adds `ET_FINI`
transitions from every state except `SESSION_RECV`, so emitting `fini` in
`session_recv` is rejected — refuting the claim that the fini event is
accepted from every state. -/
theorem C3_fini_rejected_in_session_recv :
    emitEvent SESSION_RECV ET_FINI = none := by rfl

/-- C3 (amended): the fini event is accepted, and moves the FSM to the
terminal `fini` state, from every state except `session_recv` — that is,
from `init`, `session_sent`, `sessioned`, `dismiss_sent`, `dismiss_recv`
and `dismissed`. -/
theorem C3_fini_accepted_except_session_recv (st : String)
    (h : st = INIT ∨ st = SESSION_SENT ∨ st = SESSIONED ∨ st = DISMISS_SENT
           ∨ st = DISMISS_RECV ∨ st = DISMISSED) :
    emitEvent st ET_FINI = some FINI := by
  rcases h with rfl | rfl | rfl | rfl | rfl | rfl <;> rfl

theorem C3_fini_accepted_witness :
    (DISMISS_RECV = INIT ∨ DISMISS_RECV = SESSION_SENT
        ∨ DISMISS_RECV = SESSIONED ∨ DISMISS_RECV = DISMISS_SENT
        ∨ DISMISS_RECV = DISMISS_RECV ∨ DISMISS_RECV = DISMISSED) ∧
    emitEvent DISMISS_RECV ET_FINI = some FINI :=
  ⟨Or.inr (Or.inr (Or.inr (Or.inr (Or.inl rfl)))),
   C3_fini_accepted_except_session_recv DISMISS_RECV
     (Or.inr (Or.inr (Or.inr (Or.inr (Or.inl rfl)))))⟩

/-- C4: `NewDialogue` allocates `onceFini` but never assigns `closeOnce`
(dialogue.go lines 191-230), so the `dg.closeOnce.Do(...)` in `Close`
(line 324) dereferences a nil pointer: the very first `Close` (or
`CloseWait`) on any dialogue returned by `NewDialogue`, whatever options
were passed, panics instead of enqueueing a Dismiss packet. -/
theorem C4_close_panics_on_new_dialogue (cnMeta : List Nat)
    (metaOpt : Option (List Nat)) (negotiatingID : Nat)
    (peersCall hasDlgt : Bool) :
    (newDialogue cnMeta metaOpt negotiatingID peersCall hasDlgt).close
      = CloseResult.panicked := rfl

/-- The C5 failing input: a fresh dialogue (FSM in `init`) receiving a
SessionAck. -/
def dC5 : Dialogue := {}

def ackC5 : SessionAckPacket :=
  { header := { version := 0, typ := 0, packetID := 7, packetLen := 0 },
    sessionFlags := { priority := 0, qos := 0, sessionIDAcquire := false },
    negotiateID := 7,
    sessionID := 42,
    sessionData := ⟨[], []⟩ }

/-- C5: a SessionAck in `init` is NOT rejected.  Because the source sets
`ET_SESSIONACK = "sessionrecv"` (dialogue.go line 86) — the same string as
`ET_SESSIONRECV` — the `init → session_recv` transition fires for the
session_ack event: the handler reports success (`IONewActive`) and the FSM
moves to `session_recv`, contradicting the claim that the emit fails with a
no-op error and the FSM stays in `init`. -/
theorem C5_sessionack_in_init_accepted :
    dC5.fsmState = INIT ∧
    ET_SESSIONACK = ET_SESSIONRECV ∧
    emitEvent INIT ET_SESSIONACK = some SESSION_RECV ∧
    (dC5.handleInSessionAck ackC5).1 = IORet.ioNewActive ∧
    (dC5.handleInSessionAck ackC5).2.fsmState = SESSION_RECV :=
  ⟨rfl, rfl, rfl, rfl, rfl⟩

/-- C6: dialogue teardown.  `fini` is idempotent (the `onceFini` guard makes
re-invocation a no-op); on its first run it flips `sessionOK` to false,
closes all four channels (`writeCh`, `readInCh`, `writeInCh`, `readOutCh`)
and emits the fini event (error ignored); afterwards `Write` returns
`io.EOF` leaving the write-in queue untouched, and `Read` returns `io.EOF`
once the read-out channel is drained. -/
theorem C6_fini_teardown (d : Dialogue) (pkt : Pkt)
    (h : d.onceFiniDone = false) (hbuf : d.readOutCh.buf = []) :
    d.fini.fini = d.fini ∧
    d.fini.sessionOK = false ∧
    d.fini.writeCh.closed = true ∧
    d.fini.readInCh.closed = true ∧
    d.fini.writeInCh.closed = true ∧
    d.fini.readOutCh.closed = true ∧
    d.fini.fsmState = emitIgnoreErr d.fsmState ET_FINI ∧
    d.fini.write pkt = .eof ∧
    d.fini.writeInCh.buf = d.writeInCh.buf ∧
    d.fini.read = .eof := by
  simp [Dialogue.fini, h, Dialogue.write, Dialogue.read, Chan.closeCh, hbuf]

def dC6 : Dialogue := {}

def pktC6 : Pkt := .data { version := 0, typ := 0, packetID := 0, packetLen := 0 }

theorem C6_fini_teardown_witness :
    dC6.fini.fini = dC6.fini ∧
    dC6.fini.sessionOK = false ∧
    dC6.fini.writeCh.closed = true ∧
    dC6.fini.readInCh.closed = true ∧
    dC6.fini.writeInCh.closed = true ∧
    dC6.fini.readOutCh.closed = true ∧
    dC6.fini.fsmState = emitIgnoreErr dC6.fsmState ET_FINI ∧
    dC6.fini.write pktC6 = .eof ∧
    dC6.fini.writeInCh.buf = dC6.writeInCh.buf ∧
    dC6.fini.read = .eof :=
  C6_fini_teardown dC6 pktC6 rfl rfl

/-- C7 counterexample: a dialogue whose FSM is in `dismiss_sent` but whose
teardown has begun (`sessionOK = false`).  The Dismiss handler returns
`IOErr` and enqueues nothing (dialogue.go lines 619-626), refuting the claim
that the handler always enqueues a DismissAck and reports success in that
state. -/
def dC7 : Dialogue := { fsmState := DISMISS_SENT, sessionOK := false }

def pktC7 : DismissPacket :=
  { header := { version := 0, typ := 0, packetID := 3, packetLen := 0 },
    sessionID := 9,
    sessionData := ⟨[], []⟩ }

theorem C7_no_ack_when_torn_down :
    dC7.fsmState = DISMISS_SENT ∧
    (dC7.handleInDismiss pktC7).1 = IORet.ioErr ∧
    (dC7.handleInDismiss pktC7).2.writeCh.buf = [] :=
  ⟨rfl, rfl, rfl⟩

/-- C7 (amended): when a Dismiss is received while the FSM is in
`dismiss_sent` or `dismissed`, the handler never emits `dismiss_recv` (the
FSM state is unchanged); provided teardown has not begun (`sessionOK`), it
enqueues exactly one DismissAck reply on the control channel and reports
success, and otherwise it reports `IOErr` and changes nothing. -/
theorem C7_dismiss_in_closing_states (d : Dialogue) (pkt : DismissPacket)
    (h : d.fsmState = DISMISS_SENT ∨ d.fsmState = DISMISSED) :
    (d.handleInDismiss pkt).2.fsmState = d.fsmState ∧
    (d.sessionOK = true →
        (d.handleInDismiss pkt).1 = IORet.ioSuccess ∧
        (d.handleInDismiss pkt).2.writeCh.buf
          = d.writeCh.buf
              ++ [Pkt.dismissAck
                    (newDismissAckPacket pkt.header.packetID pkt.sessionID)]) ∧
    (d.sessionOK = false →
        (d.handleInDismiss pkt).1 = IORet.ioErr ∧
        (d.handleInDismiss pkt).2 = d) := by
  have hin : d.inStates DISMISS_SENT DISMISSED = true := by
    rcases h with h | h <;> simp [Dialogue.inStates, h]
  cases hs : d.sessionOK <;>
    simp [Dialogue.handleInDismiss, hin, hs, Chan.push]

def dC7w : Dialogue := { fsmState := DISMISSED }

def pktC7w : DismissPacket :=
  { header := { version := 0, typ := 0, packetID := 4, packetLen := 0 },
    sessionID := 11,
    sessionData := ⟨[], []⟩ }

theorem C7_dismiss_in_closing_states_witness :
    (dC7w.handleInDismiss pktC7w).2.fsmState = dC7w.fsmState ∧
    (dC7w.sessionOK = true →
        (dC7w.handleInDismiss pktC7w).1 = IORet.ioSuccess ∧
        (dC7w.handleInDismiss pktC7w).2.writeCh.buf
          = dC7w.writeCh.buf
              ++ [Pkt.dismissAck
                    (newDismissAckPacket pktC7w.header.packetID pktC7w.sessionID)]) ∧
    (dC7w.sessionOK = false →
        (dC7w.handleInDismiss pktC7w).1 = IORet.ioErr ∧
        (dC7w.handleInDismiss pktC7w).2 = dC7w) :=
  C7_dismiss_in_closing_states dC7w pktC7w (Or.inr rfl)

/-- C9: passive open.  On a Session packet received in `init`, the handler
chooses the dialogue-id — the packet's negotiate-id, or the locally chosen
negotiating id when the packet's peer-assigns-id flag is set — writes back a
SessionAck carrying the originator's packet-id and the chosen id, drives
the FSM `init → session_recv → sessioned`, reports `IONewPassive`, and
fires the `DialogueOnline` delegate when one is set. -/
theorem C9_passive_open (d : Dialogue) (pkt : SessionPacket)
    (h : d.fsmState = INIT) :
    (d.handleInSession pkt).1 = IORet.ioNewPassive ∧
    (d.handleInSession pkt).2.fsmState = SESSIONED ∧
    (d.handleInSession pkt).2.dialogueID
      = (if pkt.sessionFlags.sessionIDAcquire then d.negotiatingID
         else pkt.negotiateID) ∧
    (d.handleInSession pkt).2.cnWritten
      = d.cnWritten
          ++ [Pkt.sessAck (newSessionAckPacket pkt.header.packetID
                ((d.handleInSession pkt).2.dialogueID))] ∧
    (newSessionAckPacket pkt.header.packetID
        ((d.handleInSession pkt).2.dialogueID)).header.packetID
      = pkt.header.packetID ∧
    (newSessionAckPacket pkt.header.packetID
        ((d.handleInSession pkt).2.dialogueID)).sessionID
      = (d.handleInSession pkt).2.dialogueID ∧
    emitEvent INIT ET_SESSIONRECV = some SESSION_RECV ∧
    emitEvent SESSION_RECV ET_SESSIONACK = some SESSIONED ∧
    (d.hasDelegate = true →
        (d.handleInSession pkt).2.delegateOnline
          = d.delegateOnline ++ [(d.handleInSession pkt).2.dialogueID]) := by
  have e1 : emitEvent INIT ET_SESSIONRECV = some SESSION_RECV := rfl
  have e2 : emitEvent SESSION_RECV ET_SESSIONACK = some SESSIONED := rfl
  cases hd : d.hasDelegate <;>
    cases ha : pkt.sessionFlags.sessionIDAcquire <;>
      simp [Dialogue.handleInSession, h, e1, e2, hd, ha, newSessionAckPacket]

def dC9 : Dialogue := { negotiatingID := 33, hasDelegate := true }

def pktC9 : SessionPacket :=
  { header := { version := 0, typ := 0, packetID := 9, packetLen := 0 },
    sessionFlags := { priority := 0, qos := 0, sessionIDAcquire := true },
    negotiateID := 21,
    sessionData := ⟨[5], []⟩ }

theorem C9_passive_open_witness :
    (dC9.handleInSession pktC9).1 = IORet.ioNewPassive ∧
    (dC9.handleInSession pktC9).2.fsmState = SESSIONED ∧
    (dC9.handleInSession pktC9).2.dialogueID
      = (if pktC9.sessionFlags.sessionIDAcquire then dC9.negotiatingID
         else pktC9.negotiateID) ∧
    (dC9.handleInSession pktC9).2.cnWritten
      = dC9.cnWritten
          ++ [Pkt.sessAck (newSessionAckPacket pktC9.header.packetID
                ((dC9.handleInSession pktC9).2.dialogueID))] ∧
    (newSessionAckPacket pktC9.header.packetID
        ((dC9.handleInSession pktC9).2.dialogueID)).header.packetID
      = pktC9.header.packetID ∧
    (newSessionAckPacket pktC9.header.packetID
        ((dC9.handleInSession pktC9).2.dialogueID)).sessionID
      = (dC9.handleInSession pktC9).2.dialogueID ∧
    emitEvent INIT ET_SESSIONRECV = some SESSION_RECV ∧
    emitEvent SESSION_RECV ET_SESSIONACK = some SESSIONED ∧
    (dC9.hasDelegate = true →
        (dC9.handleInSession pktC9).2.delegateOnline
          = dC9.delegateOnline ++ [(dC9.handleInSession pktC9).2.dialogueID]) :=
  C9_passive_open dC9 pktC9 rfl

/-- C10: the `Side()` accessor returns `ServerSide` for every dialogue,
whichever way it was opened — the source body is the constant
`return ServerSide` (dialogue.go lines 240-242). -/
theorem C10_side_always_server (d : Dialogue) : d.side = Side.serverSide := rfl

end Geminio
